import Mathlib

/-!
Shallow embedding of the everest-cli provisioner (Go sources
`cmd/root.go`, `pkg/cli/cli.go`, `config/config.go`) and proofs about the
claims of its specification.

External effects (Kubernetes API calls, file reads, YAML decoding, random
numbers, environment variables) are modelled by explicit environment
records whose fields give the response of each call; every operation is
embedded as a function from such an environment to a pair of an event
trace (the write-like calls it issued, in order) and an `Except` result,
mirroring the Go control flow statement by statement.
-/

namespace Everest

/-- Errors, mirroring Go's `error` values: a bare message
(`errors.New`/`fmt.Errorf`) or a wrapped cause (`errors.Wrap`). -/
inductive KErr where
  | msg : String → KErr
  | wrap : String → KErr → KErr
deriving DecidableEq, Repr

instance {ε α : Type} [DecidableEq ε] [DecidableEq α] :
    DecidableEq (Except ε α) := fun x y =>
  match x, y with
  | Except.error a, Except.error b =>
      if h : a = b then isTrue (by rw [h]) else isFalse (by simp [h])
  | Except.ok a, Except.ok b =>
      if h : a = b then isTrue (by rw [h]) else isFalse (by simp [h])
  | Except.error _, Except.ok _ => isFalse (by simp)
  | Except.ok _, Except.error _ => isFalse (by simp)

/-- `types.NamespacedName`. -/
structure NamespacedName where
  ns : String
  name : String
deriving DecidableEq, Repr

/-- The OLM install-plan approval mode (`v1alpha1.Approval`). -/
inductive Approval where
  | automatic
  | manual
deriving DecidableEq, Repr

/-- `InstallOperatorRequest` from `cmd/root.go` (field `Namespace` is
rendered `reqNs` because `namespace` is a Lean keyword). -/
structure InstallOperatorRequest where
  reqNs : String
  name : String
  operatorGroup : String
  catalogSource : String
  catalogSourceNamespace : String
  channel : String
  installPlanApproval : Approval
  startingCSV : String
deriving DecidableEq, Repr

/-- One decoded manifest resource (`unstructured.Unstructured`), reduced
to the identity fields the code actually consults: group/version/kind,
namespace and name. -/
structure Resource where
  group : String
  version : String
  kind : String
  resNs : String
  resName : String
deriving DecidableEq, Repr

/-- The write-like calls the provisioner issues against the cluster, in
the order it issues them.  Read-only calls are answered by the
environment records and are not traced. -/
inductive Event where
  | applyFile : String → Event
  | rollout : NamespacedName → Event
  | csvWait : NamespacedName → Event
  | createOperatorGroup : String → String → Event
  | createSubscription : String → String → String → String → String →
      String → String → Approval → Event
  | updateInstallPlan : String → String → Bool → Event
  | installOLM : Event
  | installOp : InstallOperatorRequest → Event
  | createPMMSecret : String → Event
  | applyVMAgent : String → Event
  | applyFileAttempt : String → Nat → Event
  | sleepSeconds : Nat → Event
  | deleteFile : String → Event
deriving DecidableEq, Repr

/-- Result of an embedded operation: the trace of issued write-like calls
paired with the Go return value. -/
def TraceM (α : Type) : Type := List Event × Except KErr α

/-- Return with an empty trace. -/
def tpure {α : Type} (a : α) : TraceM α := ([], Except.ok a)

/-- Sequence two operations; an error short-circuits, keeping the trace
produced so far (Go's early `return err`). -/
def tbind {α β : Type} (x : TraceM α) (f : α → TraceM β) : TraceM β :=
  match x with
  | (t, Except.error e) => (t, Except.error e)
  | (t, Except.ok a) =>
      match f a with
      | (t2, r) => (t ++ t2, r)

instance : Monad TraceM where
  pure := tpure
  bind := tbind

instance {α : Type} [DecidableEq α] : DecidableEq (TraceM α) :=
  inferInstanceAs (DecidableEq (List Event × Except KErr α))

/-- Issue one traced call whose outcome is `r`. -/
def stepE {α : Type} (e : Event) (r : Except KErr α) : TraceM α :=
  ([e], r)

/-- Lift an untraced (read-only) call. -/
def liftR {α : Type} (r : Except KErr α) : TraceM α := ([], r)

/-- `errors.Wrap`/`errors.Wrapf` applied to the result of an operation. -/
def wrapE {α : Type} (m : String) (x : TraceM α) : TraceM α :=
  match x with
  | (t, Except.error e) => (t, Except.error (KErr.wrap m e))
  | (t, Except.ok a) => (t, Except.ok a)

/-! ## Strings: Go's `strings.Contains` -/

/-- Whether `p` is a leading segment of `s` (character lists). -/
def charsStart : List Char → List Char → Bool
  | _, [] => true
  | [], _ :: _ => false
  | c :: cs, d :: ds => c = d && charsStart cs ds

/-- Whether `sub` occurs contiguously inside `s` (character lists). -/
def charsContain : List Char → List Char → Bool
  | [], sub => sub.isEmpty
  | c :: cs, sub => charsStart (c :: cs) sub || charsContain cs sub

/-- Go's `strings.Contains s sub`. -/
def goContains (s sub : String) : Bool :=
  charsContain s.toList sub.toList

/-! ## Storage classes: `GetDefaultStorageClassName`, `GetClusterType` -/

/-- `storagev1.StorageClass`, reduced to the fields the code reads. -/
structure StorageClass where
  name : String
  provisioner : String
deriving DecidableEq, Repr

/-- The cluster classification (`ClusterType` constants in
`cmd/root.go`). -/
inductive ClusterType where
  | unknown
  | minikube
  | eks
  | generic
deriving DecidableEq, Repr

/-- `GetDefaultStorageClassName` from `cmd/root.go`, applied to the items
returned by `GetStorageClasses` (a fetch error is propagated unchanged by
the Go method and is not modelled): if the list is non-empty return the
first item's name, otherwise `errors.New("no storage classes
available")`. -/
def GetDefaultStorageClassName : List StorageClass → Except KErr String
  | [] => Except.error (KErr.msg "no storage classes available")
  | sc :: _ => Except.ok sc.name

/-- The loop body of `GetClusterType` in `cmd/root.go`: scan the storage
classes in order; on the first whose provisioner contains "aws" return
EKS; otherwise, if it contains "minikube", the kubevirt hostpath
provisioner, or "standard", return minikube; if no item matches, return
generic. -/
def GetClusterType : List StorageClass → ClusterType
  | [] => ClusterType.generic
  | sc :: rest =>
    if goContains sc.provisioner "aws" then ClusterType.eks
    else if goContains sc.provisioner "minikube"
        || goContains sc.provisioner "kubevirt.io/hostpath-provisioner"
        || goContains sc.provisioner "standard" then ClusterType.minikube
    else GetClusterType rest

/-- The classification rule applied to a single backend, written from
the specification's words: test "aws" first (cloud), then the three
local-provisioner substrings (minikube); no match yields none. -/
def backendRule (sc : StorageClass) : Option ClusterType :=
  if goContains sc.provisioner "aws" then some ClusterType.eks
  else if goContains sc.provisioner "minikube"
      || goContains sc.provisioner "kubevirt.io/hostpath-provisioner"
      || goContains sc.provisioner "standard" then some ClusterType.minikube
  else none

/-- The classification as the specification describes it: the rule of the
first backend, in enumeration order, that matches either rule; generic
when none matches (in particular on the empty list). -/
def classifySpec (scs : List StorageClass) : ClusterType :=
  match scs.findSome? backendRule with
  | some t => t
  | none => ClusterType.generic

/-! ## Nodes: `GetWorkerNodes` -/

/-- `corev1.TaintEffect`. -/
inductive TaintEffect where
  | noSchedule
  | preferNoSchedule
  | noExecute
deriving DecidableEq, Repr

/-- `corev1.Taint`, reduced to the fields the code reads. -/
structure Taint where
  key : String
  effect : TaintEffect
deriving DecidableEq, Repr

/-- `corev1.Node`, reduced to the fields the code reads. -/
structure Node where
  name : String
  taints : List Taint
deriving DecidableEq, Repr

/-- The `forbidenTaints` map of `GetWorkerNodes` (source spelling kept),
as an association list used only for lookup. -/
def forbidenTaints : List (String × TaintEffect) :=
  [("node.cloudprovider.kubernetes.io/uninitialized", TaintEffect.noSchedule),
   ("node.kubernetes.io/unschedulable", TaintEffect.noSchedule),
   ("node-role.kubernetes.io/master", TaintEffect.noSchedule)]

/-- The per-taint test inside `GetWorkerNodes`: the node is appended for
this taint when its key is not in `forbidenTaints` or the recorded effect
differs from the taint's effect. -/
def taintAllows (t : Taint) : Bool :=
  match forbidenTaints.lookup t.key with
  | none => true
  | some e => decide (e ≠ t.effect)

/-- The inner taint loop of `GetWorkerNodes`: append the node once per
taint that passes `taintAllows`. -/
def taintAppends (n : Node) : List Taint → List Node
  | [] => []
  | t :: ts =>
      (if taintAllows t then [n] else []) ++ taintAppends n ts

/-- `GetWorkerNodes` from `cmd/root.go`, applied to the items returned by
`GetNodes` (a fetch error is propagated and not modelled): a node with no
taints is appended once; otherwise the node is appended once per taint
that does not match the forbidden map. -/
def GetWorkerNodes : List Node → List Node
  | [] => []
  | n :: rest =>
      (if n.taints = [] then [n] else taintAppends n n.taints)
        ++ GetWorkerNodes rest

/-- How many times one node appears in the output of `GetWorkerNodes` for
a single occurrence in the input. -/
def workerMultiplicity (n : Node) : Nat :=
  if n.taints = [] then 1 else n.taints.countP taintAllows

/-! ## OLM bootstrap: `InstallOLMOperator` -/

/-- `appsv1.Deployment`, reduced to the one field the code reads. -/
structure Deployment where
  name : String
deriving DecidableEq, Repr

/-- Environment of `InstallOLMOperator`: the response of every external
call it can issue.  Manifest file bytes are modelled as strings; `decode`
stands for `decodeResources` applied to those bytes (the YAML decoding
itself is an external library call). -/
structure OLMEnv where
  deployment : Except KErr (Option Deployment)
  readFile : String → Except KErr String
  applyFile : String → Except KErr Unit
  decode : String → Except KErr (List Resource)
  rolloutWait : NamespacedName → Except KErr Unit
  subscriptionCSV : NamespacedName → Except KErr NamespacedName
  csvWait : NamespacedName → Except KErr Unit

/-- The idempotency check opening `InstallOLMOperator`:
`err == nil && deployment != nil && deployment.ObjectMeta.Name != ""`. -/
def olmFound : Except KErr (Option Deployment) → Bool
  | Except.ok (some d) => d.name != ""
  | _ => false

/-- The predicate passed to `filterResources` in `InstallOLMOperator`:
group/version/kind equals the OLM Subscription GVK
(`v1alpha1.GroupName`/`GroupVersion`/`SubscriptionKind`). -/
def subscriptionGVK (r : Resource) : Bool :=
  r.group == "operators.coreos.com" && r.version == "v1alpha1"
    && r.kind == "Subscription"

/-- `filterResources` from `cmd/root.go`: keep the resources matching
the predicate, preserving order. -/
def filterResources : List Resource → (Resource → Bool) → List Resource
  | [], _ => []
  | r :: rest, f => (if f r then [r] else []) ++ filterResources rest f

/-- `GetSubscriptionCSV` step of the subscription loop, with the
`fmt.Errorf` message the code produces on failure. -/
def subscriptionCSVResult (env : OLMEnv) (sub : Resource) :
    Except KErr NamespacedName :=
  match env.subscriptionCSV ⟨sub.resNs, sub.resName⟩ with
  | Except.error _ =>
      Except.error (KErr.msg
        ("subscription/" ++ sub.resName ++ " failed to install CSV"))
  | Except.ok k => Except.ok k

/-- `DoCSVWait` step of the subscription loop, with the `fmt.Errorf`
message the code produces on failure (the underlying error is
discarded by the code). -/
def csvWaitResult (env : OLMEnv) (k : NamespacedName) : Except KErr Unit :=
  match env.csvWait k with
  | Except.error _ =>
      Except.error (KErr.msg
        ("clusterserviceversion/" ++ k.name
          ++ " failed to reach Succeeded phase"))
  | Except.ok _ => Except.ok ()

/-- The `for _, sub := range subscriptions` loop of
`InstallOLMOperator`: resolve each subscription's CSV key, then wait for
that CSV to reach the Succeeded phase. -/
def csvLoop (env : OLMEnv) : List Resource → TraceM Unit
  | [] => tpure ()
  | sub :: rest => do
    let csvKey ← liftR (subscriptionCSVResult env sub)
    let _ ← stepE (Event.csvWait csvKey) (csvWaitResult env csvKey)
    csvLoop env rest

/-- `InstallOLMOperator` from `cmd/root.go`.  If the `olm-operator`
deployment is found the call returns at once.  Otherwise it reads and
applies `crds.yaml`, `olm.yaml` and `percona-dbaas-catalog.yaml` in that
order (the Go wrap message names `crdFile` for all three applies, a slip
kept here), waits for the `olm-operator` and `catalog-operator`
rollouts, decodes the crd and olm files (not the catalog), filters the
decoded resources for Subscriptions, runs the CSV wait loop over them,
and finally waits for the `packageserver` rollout. -/
def InstallOLMOperator (env : OLMEnv) : TraceM Unit :=
  if olmFound env.deployment then tpure ()
  else do
    let crdFile ← wrapE "failed to read OLM CRDs file"
      (liftR (env.readFile "crds/olm/crds.yaml"))
    let _ ← wrapE ("cannot apply " ++ crdFile ++ " file")
      (stepE (Event.applyFile crdFile) (env.applyFile crdFile))
    let olmFile ← wrapE "failed to read OLM file"
      (liftR (env.readFile "crds/olm/olm.yaml"))
    let _ ← wrapE ("cannot apply " ++ crdFile ++ " file")
      (stepE (Event.applyFile olmFile) (env.applyFile olmFile))
    let perconaCatalog ← wrapE "failed to read percona catalog yaml file"
      (liftR (env.readFile "crds/olm/percona-dbaas-catalog.yaml"))
    let _ ← wrapE ("cannot apply " ++ crdFile ++ " file")
      (stepE (Event.applyFile perconaCatalog)
        (env.applyFile perconaCatalog))
    let _ ← wrapE "error while waiting for deployment rollout"
      (stepE (Event.rollout ⟨"olm", "olm-operator"⟩)
        (env.rolloutWait ⟨"olm", "olm-operator"⟩))
    let _ ← wrapE "error while waiting for deployment rollout"
      (stepE (Event.rollout ⟨"olm", "catalog-operator"⟩)
        (env.rolloutWait ⟨"olm", "catalog-operator"⟩))
    let crdResources ← wrapE "cannot decode crd resources"
      (liftR (env.decode crdFile))
    let olmResources ← wrapE "cannot decode olm resources"
      (liftR (env.decode olmFile))
    let subscriptions :=
      filterResources (crdResources ++ olmResources) subscriptionGVK
    let _ ← csvLoop env subscriptions
    let _ ← wrapE "error while waiting for deployment rollout"
      (stepE (Event.rollout ⟨"olm", "packageserver"⟩)
        (env.rolloutWait ⟨"olm", "packageserver"⟩))
    tpure ()

/-- The CSV key the environment resolves for a subscription resource
(defaulting when the resolution fails; used only to state traces of
successful runs). -/
def csvKeyFor (env : OLMEnv) (sub : Resource) : NamespacedName :=
  match env.subscriptionCSV ⟨sub.resNs, sub.resName⟩ with
  | Except.ok k => k
  | Except.error _ => ⟨"", ""⟩

/-- Whether an event is a CSV wait. -/
def isCsvWait : Event → Bool
  | Event.csvWait _ => true
  | _ => false

/-- A Subscription-kind resource placed in the vendor catalog manifest of
the counterexample environment. -/
def subRes0 : Resource :=
  ⟨"operators.coreos.com", "v1alpha1", "Subscription", "olm", "subA"⟩

/-- Counterexample environment for the bootstrap claim: the deployment is
absent, every call succeeds, the crd and olm manifests decode to nothing,
and the vendor catalog manifest decodes to one Subscription resource.
File bytes are modelled by the file path itself. -/
def olmEnv0 : OLMEnv :=
  { deployment := Except.ok none
    readFile := fun p => Except.ok p
    applyFile := fun _ => Except.ok ()
    decode := fun b =>
      if b == "crds/olm/percona-dbaas-catalog.yaml" then
        Except.ok [subRes0]
      else Except.ok []
    rolloutWait := fun _ => Except.ok ()
    subscriptionCSV := fun k => Except.ok ⟨k.ns, k.name ++ "-csv"⟩
    csvWait := fun _ => Except.ok () }

/-! ## Operator upgrade: `UpgradeOperator` -/

/-- `v1alpha1.Subscription`, reduced to the fields the code reads:
`Status.Install` is a nullable reference carrying a name. -/
structure Subscription where
  install : Option String
deriving DecidableEq, Repr

/-- `v1alpha1.InstallPlan`, reduced to `Spec.Approved`. -/
structure InstallPlan where
  approved : Bool
deriving DecidableEq, Repr

/-- Environment of `UpgradeOperator`: the outcome of the bounded poll on
the subscription (its final fetched value, or the poll's error), the
install-plan fetch, and the install-plan write. -/
structure UpgradeEnv where
  pollSubscription : Except KErr (Option Subscription)
  getInstallPlan : String → Except KErr InstallPlan
  updateInstallPlan : String → InstallPlan → Except KErr Unit

/-- The `subs == nil || subs.Status.Install == nil ||
subs.Status.Install.Name == ""` check of `UpgradeOperator`, returning
the install-plan name when it passes. -/
def subInstallName : Option Subscription → Option String
  | none => none
  | some s =>
    match s.install with
    | none => none
    | some n => if n = "" then none else some n

/-- `UpgradeOperator` from `cmd/root.go`: poll for the subscription,
check its install-plan reference, fetch the install plan; if it is
already approved return success with no write, otherwise set
`approved = true` and write it back. -/
def UpgradeOperator (env : UpgradeEnv) (ns opName : String) :
    TraceM Unit :=
  match env.pollSubscription with
  | Except.error e => liftR (Except.error e)
  | Except.ok subsOpt =>
    match subInstallName subsOpt with
    | none =>
        liftR (Except.error (KErr.msg
          ("cannot get subscription for " ++ opName ++ " operator")))
    | some ipName =>
      match env.getInstallPlan ipName with
      | Except.error e =>
          liftR (Except.error (KErr.wrap
            ("cannot get install plan to upgrade " ++ opName) e))
      | Except.ok ip =>
        if ip.approved then tpure ()
        else stepE (Event.updateInstallPlan ns ipName true)
          (env.updateInstallPlan ipName { ip with approved := true })

/-- Success environment used to instantiate the bootstrap theorem: like
`olmEnv0` but the Subscription resource sits in the olm manifest, which
the code does decode. -/
def olmEnvW : OLMEnv :=
  { olmEnv0 with
    decode := fun b =>
      if b == "crds/olm/olm.yaml" then Except.ok [subRes0]
      else Except.ok [] }

/-- Environment in which the `olm-operator` deployment is already
present. -/
def olmEnvFound : OLMEnv :=
  { olmEnv0 with deployment := Except.ok (some ⟨"olm-operator"⟩) }

/-- Environment of `UpgradeOperator` whose subscription resolves to an
already-approved install plan and whose write would fail if issued. -/
def upgEnv0 : UpgradeEnv :=
  { pollSubscription := Except.ok (some ⟨some "ip-1"⟩)
    getInstallPlan := fun _ => Except.ok ⟨true⟩
    updateInstallPlan := fun _ _ =>
      Except.error (KErr.msg "unexpected write") }

/-! ## Operator install: `InstallOperator` -/

/-- Environment of `InstallOperator`: operator-group read and create,
the subscription create, the outcome of the bounded poll on the
subscription (its final fetched value or the poll's error), the
install-plan fetch, and the install-plan write. -/
structure InstallOpEnv where
  getOperatorGroup : String → Except KErr Unit
  createOperatorGroup : String → Except KErr Unit
  createSubscription : Except KErr Unit
  pollSubscription : Except KErr (Option Subscription)
  getInstallPlan : String → Except KErr InstallPlan
  updateInstallPlan : String → InstallPlan → Except KErr Unit

/-- `createOperatorGroupIfNeeded` from `cmd/root.go`: if the group can
be fetched do nothing, otherwise create it in the `default`
namespace. -/
def createOperatorGroupIfNeeded (env : InstallOpEnv) (name : String) :
    TraceM Unit :=
  match env.getOperatorGroup name with
  | Except.ok _ => tpure ()
  | Except.error _ =>
      stepE (Event.createOperatorGroup "default" name)
        (env.createOperatorGroup name)

/-- `InstallOperator` from `cmd/root.go`: ensure the operator group,
create the subscription — passing `v1alpha1.ApprovalManual` as the
approval, not the request's `InstallPlanApproval` field (the create-wrap
message keeps the source's spelling) — poll for the subscription's
install-plan reference, fetch the plan, set `approved = true` and write
it back unconditionally.  A successful poll guarantees a non-nil
install reference in Go; a nil reference is mapped to the same error as
a nil subscription. -/
def InstallOperator (env : InstallOpEnv) (req : InstallOperatorRequest) :
    TraceM Unit := do
  let _ ← createOperatorGroupIfNeeded env req.operatorGroup
  let _ ← wrapE "cannot create a susbcription to install the operator"
    (stepE (Event.createSubscription req.reqNs req.name "olm"
      req.catalogSource req.name req.channel req.startingCSV
      Approval.manual) env.createSubscription)
  match env.pollSubscription with
  | Except.error e => liftR (Except.error e)
  | Except.ok none =>
      liftR (Except.error (KErr.msg
        ("cannot get an install plan for the operator subscription: "
          ++ req.name)))
  | Except.ok (some subs) =>
    match subs.install with
    | none =>
        liftR (Except.error (KErr.msg
          ("cannot get an install plan for the operator subscription: "
            ++ req.name)))
    | some ipName => do
      let ip ← liftR (env.getInstallPlan ipName)
      stepE (Event.updateInstallPlan req.reqNs ipName true)
        (env.updateInstallPlan ipName { ip with approved := true })

/-- The approval mode carried by a subscription-create event, if the
event is one. -/
def subscriptionApproval : Event → Option Approval
  | Event.createSubscription _ _ _ _ _ _ _ a => some a
  | _ => none

/-- All-success environment for `InstallOperator`. -/
def instEnv0 : InstallOpEnv :=
  { getOperatorGroup := fun _ => Except.ok ()
    createOperatorGroup := fun _ => Except.ok ()
    createSubscription := Except.ok ()
    pollSubscription := Except.ok (some ⟨some "ip-A"⟩)
    getInstallPlan := fun _ => Except.ok ⟨false⟩
    updateInstallPlan := fun _ _ => Except.ok () }

/-- A request that asks for automatic approval, to exercise the fixed
manual approval. -/
def autoReq : InstallOperatorRequest :=
  ⟨"default", "victoriametrics-operator", "percona-operators-group",
    "percona-dbaas-catalog", "olm", "stable-v0", Approval.automatic, ""⟩

/-! ## Monitoring: `ProvisionMonitoring`, `CleanupMonitoring` -/

/-- Environment of `ProvisionMonitoring`: the `crypto/rand` prime used
in the secret name, the secret apply, the VMAgent object apply, the
manifest file reads, and the per-path per-attempt manifest applies. -/
structure MonEnv where
  randPrime : Except KErr Nat
  applySecret : String → String → String → Except KErr Unit
  applyVMAgentSpec : String → String → Except KErr Unit
  readFile : String → Except KErr Unit
  applyFile : String → Nat → Except KErr Unit

/-- The `for i := 0; i < 3; i++` apply loop of `ProvisionMonitoring`:
attempt the apply; on error sleep 10 seconds and continue, on success
break; the loop leaves the last attempt's error behind. -/
def retryApplyLoop (apply : Nat → Except KErr Unit) (path : String) :
    Nat → Nat → Except KErr Unit → List Event × Except KErr Unit
  | _, 0, last => ([], last)
  | i, fuel + 1, _ =>
    match apply i with
    | Except.ok _ => ([Event.applyFileAttempt path i], Except.ok ())
    | Except.error e =>
      match retryApplyLoop apply path (i + 1) fuel (Except.error e) with
      | (t, r) =>
          (Event.applyFileAttempt path i :: Event.sleepSeconds 10 :: t, r)

/-- The retry loop followed by the `if err != nil` wrap
(`cannot apply file: %q`) of `ProvisionMonitoring`. -/
def applyFileWithRetry (apply : Nat → Except KErr Unit) (path : String) :
    TraceM Unit :=
  match retryApplyLoop apply path 0 3 (Except.ok ()) with
  | (t, Except.error e) =>
      (t, Except.error (KErr.wrap ("cannot apply file: " ++ path) e))
  | (t, Except.ok _) => (t, Except.ok ())

/-- The `files` list of `ProvisionMonitoring`, in source order. -/
def provisionMonitoringFiles : List String :=
  ["crds/victoriametrics/crs/vmagent_rbac.yaml",
   "crds/victoriametrics/crs/vmnodescrape.yaml",
   "crds/victoriametrics/crs/vmpodscrape.yaml",
   "crds/victoriametrics/kube-state-metrics/service-account.yaml",
   "crds/victoriametrics/kube-state-metrics/cluster-role.yaml",
   "crds/victoriametrics/kube-state-metrics/cluster-role-binding.yaml",
   "crds/victoriametrics/kube-state-metrics/deployment.yaml",
   "crds/victoriametrics/kube-state-metrics/service.yaml",
   "crds/victoriametrics/kube-state-metrics.yaml"]

/-- The `for _, path := range files` loop of `ProvisionMonitoring`:
read each file, then apply it with the retry loop. -/
def monFilesLoop (env : MonEnv) : List String → TraceM Unit
  | [] => tpure ()
  | p :: rest => do
    let _ ← liftR (env.readFile p)
    let _ ← applyFileWithRetry (env.applyFile p) p
    monFilesLoop env rest

/-- `ProvisionMonitoring` from `cmd/root.go`: draw a random prime, create
the `vm-operator-<prime>` secret holding the login and password, apply
the VMAgent spec (named `pmm-vmagent-` plus the secret name), then apply
each monitoring manifest with the retry loop. -/
def ProvisionMonitoring (env : MonEnv)
    (login password pmmPublicAddress : String) : TraceM Unit := do
  let suffix ← liftR env.randPrime
  let secretName := "vm-operator-" ++ toString suffix
  let _ ← stepE (Event.createPMMSecret secretName)
    (env.applySecret secretName login password)
  let _ ← wrapE "cannot apply vm agent spec"
    (stepE (Event.applyVMAgent ("pmm-vmagent-" ++ secretName))
      (env.applyVMAgentSpec secretName pmmPublicAddress))
  monFilesLoop env provisionMonitoringFiles

/-- The `files` list of `CleanupMonitoring`, in source order. -/
def cleanupMonitoringFiles : List String :=
  ["crds/victoriametrics/kube-state-metrics.yaml",
   "crds/victoriametrics/kube-state-metrics/cluster-role-binding.yaml",
   "crds/victoriametrics/kube-state-metrics/cluster-role.yaml",
   "crds/victoriametrics/kube-state-metrics/deployment.yaml",
   "crds/victoriametrics/kube-state-metrics/service-account.yaml",
   "crds/victoriametrics/kube-state-metrics/service.yaml",
   "crds/victoriametrics/crs/vmagent_rbac.yaml",
   "crds/victoriametrics/crs/vmnodescrape.yaml",
   "crds/victoriametrics/crs/vmpodscrape.yaml"]

/-- Environment of `CleanupMonitoring`: manifest reads and deletes. -/
structure CleanupEnv where
  readFile : String → Except KErr Unit
  deleteFile : String → Except KErr Unit

/-- The `for _, path := range files` loop of `CleanupMonitoring`: read
each file and delete it (the error wrap keeps the source's copy-pasted
`cannot apply file` message). -/
def cleanupLoop (env : CleanupEnv) : List String → TraceM Unit
  | [] => tpure ()
  | p :: rest => do
    let _ ← liftR (env.readFile p)
    let _ ← wrapE ("cannot apply file: " ++ p)
      (stepE (Event.deleteFile p) (env.deleteFile p))
    cleanupLoop env rest

/-- `CleanupMonitoring` from `cmd/root.go`. -/
def CleanupMonitoring (env : CleanupEnv) : TraceM Unit :=
  cleanupLoop env cleanupMonitoringFiles

/-- Paths of manifest apply attempts in a trace, in order. -/
def appliedPaths (t : List Event) : List String :=
  t.filterMap fun e =>
    match e with
    | Event.applyFileAttempt p _ => some p
    | _ => none

/-- Paths of manifest deletes in a trace, in order. -/
def deletedPaths (t : List Event) : List String :=
  t.filterMap fun e =>
    match e with
    | Event.deleteFile p => some p
    | _ => none

/-- Whether an event is the fixed-backoff sleep. -/
def isSleepEvent : Event → Bool
  | Event.sleepSeconds _ => true
  | _ => false

/-- Whether an event is a manifest apply attempt. -/
def isAttemptEvent : Event → Bool
  | Event.applyFileAttempt _ _ => true
  | _ => false

/-- An apply that fails on every attempt. -/
def alwaysFail : Nat → Except KErr Unit :=
  fun _ => Except.error (KErr.msg "boom")

/-- All-success environment for `ProvisionMonitoring`. -/
def monEnvOk : MonEnv :=
  { randPrime := Except.ok 11
    applySecret := fun _ _ _ => Except.ok ()
    applyVMAgentSpec := fun _ _ => Except.ok ()
    readFile := fun _ => Except.ok ()
    applyFile := fun _ _ => Except.ok () }

/-- All-success environment for `CleanupMonitoring`. -/
def cleanupEnvOk : CleanupEnv :=
  { readFile := fun _ => Except.ok ()
    deleteFile := fun _ => Except.ok () }

/-! ## CLI: `ProvisionCluster`, `provisionPMMMonitoring`,
`ProvisionPMM` -/

/-- Environment of `ProvisionCluster`: the two configuration flags it
reads (`InstallOLM` and the monitoring-enabled flag), `os.LookupEnv`,
and the outcomes of the OLM bootstrap and of each operator install. -/
structure CliEnv where
  installOLM : Bool
  monitoringEnabled : Bool
  lookupEnv : String → Option String
  olmResult : Except KErr Unit
  opInstall : InstallOperatorRequest → Except KErr Unit

/-- The channel selection of `ProvisionCluster`:
`channel, ok := os.LookupEnv(v); if !ok || channel == "" { channel =
dflt }`. -/
def envChannel (env : CliEnv) (v dflt : String) : String :=
  match env.lookupEnv v with
  | none => dflt
  | some c => if c = "" then dflt else c

/-- `provisionPMMMonitoring` from `pkg/cli/cli.go`: the body is
`return nil`. -/
def provisionPMMMonitoring : TraceM Unit := tpure ()

/-- `ProvisionCluster` from `pkg/cli/cli.go`: install OLM when
configured; build the install request for the Victoria Metrics operator
with its channel; install it; read the PXC channel variable but — as in
the source — leave the request unchanged and install it again; update
the request for the PSMDB operator and its channel and install; update
for the DBaaS operator and its channel and install; finally run
`provisionPMMMonitoring` when monitoring is enabled. -/
def ProvisionCluster (env : CliEnv) : TraceM Unit := do
  let _ ← if env.installOLM then stepE Event.installOLM env.olmResult
    else tpure ()
  let chVM := envChannel env "DBAAS_VM_OP_CHANNEL" "stable-v0"
  let params0 : InstallOperatorRequest :=
    ⟨"default", "victoriametrics-operator", "percona-operators-group",
      "percona-dbaas-catalog", "olm", chVM, Approval.manual, ""⟩
  let _ ← stepE (Event.installOp params0) (env.opInstall params0)
  let _chPXC := envChannel env "DBAAS_PXC_OP_CHANNEL" "stable-v1"
  let _ ← stepE (Event.installOp params0) (env.opInstall params0)
  let chPSMDB := envChannel env "DBAAS_PSMDB_OP_CHANNEL" "stable-v1"
  let params1 := { params0 with
    name := "percona-server-mongodb-operator", channel := chPSMDB }
  let _ ← stepE (Event.installOp params1) (env.opInstall params1)
  let chDBAAS := envChannel env "DBAAS_DBAAS_OP_CHANNEL" "stable-v0"
  let params2 := { params1 with
    name := "dbaas-operator", channel := chDBAAS }
  let _ ← stepE (Event.installOp params2) (env.opInstall params2)
  if env.monitoringEnabled then provisionPMMMonitoring else tpure ()

/-- Environment of `ProvisionPMM`: the `rand.Int63` account suffix, the
outcome of the `createAdminToken` HTTP flow, the monitoring environment
and the configured PMM endpoint. -/
structure PMMEnv where
  randAccount : Nat
  adminToken : Except KErr String
  mon : MonEnv
  pmmEndpoint : String

/-- `ProvisionPMM` from `pkg/cli/cli.go`: mint an admin token for a
random `dbaas-service-account-<n>` account and run
`ProvisionMonitoring` with that account, token and endpoint. -/
def ProvisionPMM (env : PMMEnv) : TraceM Unit :=
  match env.adminToken with
  | Except.error e => liftR (Except.error e)
  | Except.ok token =>
      ProvisionMonitoring env.mon
        ("dbaas-service-account-" ++ toString env.randAccount) token
        env.pmmEndpoint

/-- `ProvisionCluster` environment with every variable absent and every
call succeeding. -/
def cliEnv0 : CliEnv :=
  { installOLM := true
    monitoringEnabled := true
    lookupEnv := fun _ => none
    olmResult := Except.ok ()
    opInstall := fun _ => Except.ok () }

/-- Like `cliEnv0` but with the PXC channel variable set, to show it has
no effect. -/
def cliEnvPXC : CliEnv :=
  { cliEnv0 with
    lookupEnv := fun v =>
      if v == "DBAAS_PXC_OP_CHANNEL" then some "my-pxc" else none }

/-- The install request `ProvisionCluster` builds for the Victoria
Metrics operator when no channel variable is set. -/
def vmParams : InstallOperatorRequest :=
  ⟨"default", "victoriametrics-operator", "percona-operators-group",
    "percona-dbaas-catalog", "olm", "stable-v0", Approval.manual, ""⟩

/-- Concrete environment for `ProvisionPMM`. -/
def pmmEnv0 : PMMEnv :=
  { randAccount := 5
    adminToken := Except.ok "token0"
    mon := monEnvOk
    pmmEndpoint := "http://pmm" }

/-- The operator name carried by an operator-install event, if the
event is one. -/
def installOpName : Event → Option String
  | Event.installOp r => some r.name
  | _ => none

/-! # Theorems -/

theorem bind_eq_tbind {α β : Type} :
    (Bind.bind : TraceM α → (α → TraceM β) → TraceM β) = tbind := rfl

theorem tbind_ok {α β : Type} (t : List Event) (a : α) (f : α → TraceM β) :
    tbind (t, Except.ok a) f = (t ++ (f a).1, (f a).2) := by
  simp only [tbind]
  rcases h : f a with ⟨t2, r⟩
  simp [h]

theorem tbind_error {α β : Type} (t : List Event) (e : KErr)
    (f : α → TraceM β) :
    tbind (t, Except.error e) f = (t, Except.error e) := by
  simp [tbind]

theorem getClusterType_eq_classifySpec (scs : List StorageClass) :
    GetClusterType scs = classifySpec scs := by
  induction scs with
  | nil => rfl
  | cons sc rest ih =>
    by_cases h1 : goContains sc.provisioner "aws"
    · simp [GetClusterType, classifySpec, List.findSome?_cons,
        backendRule, h1]
    · by_cases h2 : (goContains sc.provisioner "minikube"
          || goContains sc.provisioner "kubevirt.io/hostpath-provisioner"
          || goContains sc.provisioner "standard")
      · simp [GetClusterType, classifySpec, List.findSome?_cons,
          backendRule, h1, h2]
      · have hb : backendRule sc = none := by
          simp [backendRule, h1, h2]
        simpa [GetClusterType, classifySpec, List.findSome?_cons, hb,
          h1, h2] using ih

/-- C3: `GetClusterType` scans the backends in enumeration order,
checking each backend first against the "aws" rule (EKS) and then
against the "minikube"/hostpath/"standard" rule (minikube), the first
matching backend short-circuiting; when no backend matches — in
particular on the empty list — the result is the generic classification,
not an error. (`classifySpec` is that scan written from the
specification's words.) -/
theorem claimC3_confirmed :
    (∀ scs, GetClusterType scs = classifySpec scs) ∧
    GetClusterType [] = ClusterType.generic ∧
    GetClusterType [⟨"sc1", "ebs.csi.aws.com"⟩] = ClusterType.eks ∧
    GetClusterType [⟨"sc2", "kubevirt.io/hostpath-provisioner"⟩]
      = ClusterType.minikube ∧
    GetClusterType [⟨"sc3", "other"⟩, ⟨"sc1", "ebs.csi.aws.com"⟩]
      = ClusterType.eks ∧
    GetClusterType [⟨"sc2", "standard"⟩, ⟨"sc1", "ebs.csi.aws.com"⟩]
      = ClusterType.minikube :=
  ⟨getClusterType_eq_classifySpec, rfl, by decide, by decide, by decide,
    by decide⟩

/-- C9: `GetDefaultStorageClassName` returns the first storage class
name when the listing is non-empty and an error when it is empty,
whereas `GetClusterType` classifies an empty listing as generic rather
than failing. -/
theorem claimC9_confirmed :
    (∀ sc rest, GetDefaultStorageClassName (sc :: rest)
        = Except.ok sc.name) ∧
    GetDefaultStorageClassName []
      = Except.error (KErr.msg "no storage classes available") ∧
    GetClusterType [] = ClusterType.generic :=
  ⟨fun _ _ => rfl, rfl, rfl⟩

theorem taintAppends_eq_replicate (n : Node) (ts : List Taint) :
    taintAppends n ts = List.replicate (ts.countP taintAllows) n := by
  induction ts with
  | nil => rfl
  | cons t ts ih =>
    by_cases h : taintAllows t
    · simp [taintAppends, h, ih, List.countP_cons, Nat.add_comm,
        List.replicate_succ]
    · simp [taintAppends, h, ih, List.countP_cons]

theorem getWorkerNodes_eq_bind (nodes : List Node) :
    GetWorkerNodes nodes
      = nodes.flatMap (fun n => List.replicate (workerMultiplicity n) n) := by
  induction nodes with
  | nil => rfl
  | cons n rest ih =>
    by_cases h : n.taints = []
    · simp [GetWorkerNodes, h, ih, workerMultiplicity]
    · simp [GetWorkerNodes, h, ih, workerMultiplicity,
        taintAppends_eq_replicate]

/-- C4: `GetWorkerNodes` appends each node once if it has no taints and
otherwise once per taint that does not match the forbidden map
(`workerMultiplicity` counts those appends): a taintless node appears
exactly once, a node whose single taint has a forbidden key with the
recorded effect is excluded, a node whose single taint has an unknown
key or a known key with a different effect appears once, and a
multi-taint node appears once per non-matching taint, so it can appear
more than once. -/
theorem claimC4_confirmed :
    (∀ nodes, GetWorkerNodes nodes
        = nodes.flatMap (fun n => List.replicate (workerMultiplicity n) n)) ∧
    (∀ n, n.taints = [] → workerMultiplicity n = 1) ∧
    (∀ n t e, n.taints = [t] → forbidenTaints.lookup t.key = some e →
        e = t.effect → workerMultiplicity n = 0) ∧
    (∀ n t, n.taints = [t] → forbidenTaints.lookup t.key = none →
        workerMultiplicity n = 1) ∧
    (∀ n t e, n.taints = [t] → forbidenTaints.lookup t.key = some e →
        e ≠ t.effect → workerMultiplicity n = 1) ∧
    (∀ n, n.taints ≠ [] →
        workerMultiplicity n = n.taints.countP taintAllows) := by
  refine ⟨getWorkerNodes_eq_bind, ?_, ?_, ?_, ?_, ?_⟩
  · intro n h
    simp [workerMultiplicity, h]
  · intro n t e ht hl he
    simp [workerMultiplicity, ht, List.countP_cons, taintAllows, hl, he]
  · intro n t ht hl
    simp [workerMultiplicity, ht, List.countP_cons, taintAllows, hl]
  · intro n t e ht hl he
    simp [workerMultiplicity, ht, List.countP_cons, taintAllows, hl, he]
  · intro n h
    simp [workerMultiplicity, h]

/-- Concrete instance of `claimC4_confirmed`: a taintless node is kept
once, a master-tainted node is dropped, an unknown-key taint is kept,
and a three-taint node with one forbidden taint is appended twice. -/
theorem claimC4_witness :
    GetWorkerNodes [⟨"plain", []⟩]
      = [⟨"plain", []⟩] ∧
    workerMultiplicity
      ⟨"master", [⟨"node-role.kubernetes.io/master",
        TaintEffect.noSchedule⟩]⟩ = 0 ∧
    workerMultiplicity
      ⟨"custom", [⟨"custom/foo", TaintEffect.noSchedule⟩]⟩ = 1 ∧
    workerMultiplicity
      ⟨"multi", [⟨"custom/foo", TaintEffect.noSchedule⟩,
        ⟨"node-role.kubernetes.io/master", TaintEffect.noSchedule⟩,
        ⟨"custom/bar", TaintEffect.noExecute⟩]⟩ = 2 := by
  refine ⟨?_, ?_, ?_, ?_⟩
  · rw [claimC4_confirmed.1]
    decide
  · exact claimC4_confirmed.2.2.1 _
      ⟨"node-role.kubernetes.io/master", TaintEffect.noSchedule⟩
      TaintEffect.noSchedule rfl (by decide) rfl
  · exact claimC4_confirmed.2.2.2.1 _
      ⟨"custom/foo", TaintEffect.noSchedule⟩ rfl (by decide)
  · have := claimC4_confirmed.2.2.2.2.2
      ⟨"multi", [⟨"custom/foo", TaintEffect.noSchedule⟩,
        ⟨"node-role.kubernetes.io/master", TaintEffect.noSchedule⟩,
        ⟨"custom/bar", TaintEffect.noExecute⟩]⟩ (by decide)
    rw [this]
    decide

theorem csvLoop_ok (env : OLMEnv) :
    ∀ (subs : List Resource) (tc : List Event),
      csvLoop env subs = (tc, Except.ok ()) →
      tc = subs.map (fun sub => Event.csvWait (csvKeyFor env sub)) ∧
      ∀ sub ∈ subs,
        env.subscriptionCSV ⟨sub.resNs, sub.resName⟩
          = Except.ok (csvKeyFor env sub) ∧
        env.csvWait (csvKeyFor env sub) = Except.ok () := by
  intro subs
  induction subs with
  | nil =>
    intro tc h
    simp only [csvLoop, tpure] at h
    injection h with h1 h2
    simp [← h1]
  | cons sub rest ih =>
    intro tc h
    rcases hr : env.subscriptionCSV ⟨sub.resNs, sub.resName⟩ with e | k
    · simp only [csvLoop, bind_eq_tbind, tbind, liftR,
        subscriptionCSVResult, hr] at h
      injection h with h1 h2
      exact absurd h2 (by simp)
    · rcases hw : env.csvWait k with e | u
      · simp only [csvLoop, bind_eq_tbind, tbind, liftR, stepE,
          subscriptionCSVResult, csvWaitResult, hr, hw,
          List.nil_append] at h
        injection h with h1 h2
        exact absurd h2 (by simp)
      · rcases hrest : csvLoop env rest with ⟨trest, rrest⟩
        simp only [csvLoop, bind_eq_tbind, tbind, liftR, stepE,
          subscriptionCSVResult, csvWaitResult, hr, hw, hrest,
          List.nil_append, List.singleton_append] at h
        rcases rrest with e | v
        · injection h with h1 h2
          exact absurd h2 (by simp)
        · injection h with h1 h2
          have hkey : csvKeyFor env sub = k := by
            simp [csvKeyFor, hr]
          obtain ⟨hrec1, hrec2⟩ := ih trest (by rw [hrest, h2])
          refine ⟨?_, ?_⟩
          · simp [← h1, hkey, hrec1]
          · intro s hs
            rcases List.mem_cons.mp hs with hs | hs
            · subst hs
              exact ⟨by simp [hkey, hr], by simp [hkey, hw]⟩
            · exact hrec2 s hs

/-- C1 (amended): if the `olm-operator` deployment is found up front the
bootstrap returns success with an empty trace (zero applies); on a run
where the deployment is absent and every call succeeds it applies the
three manifests in fixed order, waits for the `olm-operator` and
`catalog-operator` rollouts, waits for the CSV of every
Subscription-kind resource decoded from the first two applied manifests
(the crd and olm files — the vendor catalog is applied but never
decoded), and finally waits for the `packageserver` rollout; the CSV
loop waits once, in order, per decoded Subscription. -/
theorem claimC1_amended :
    (∀ env, olmFound env.deployment = true →
      InstallOLMOperator env = ([], Except.ok ())) ∧
    (∀ env b1 b2 b3 rs1 rs2 tc,
      olmFound env.deployment = false →
      env.readFile "crds/olm/crds.yaml" = Except.ok b1 →
      env.applyFile b1 = Except.ok () →
      env.readFile "crds/olm/olm.yaml" = Except.ok b2 →
      env.applyFile b2 = Except.ok () →
      env.readFile "crds/olm/percona-dbaas-catalog.yaml" = Except.ok b3 →
      env.applyFile b3 = Except.ok () →
      env.rolloutWait ⟨"olm", "olm-operator"⟩ = Except.ok () →
      env.rolloutWait ⟨"olm", "catalog-operator"⟩ = Except.ok () →
      env.decode b1 = Except.ok rs1 →
      env.decode b2 = Except.ok rs2 →
      csvLoop env (filterResources (rs1 ++ rs2) subscriptionGVK)
        = (tc, Except.ok ()) →
      env.rolloutWait ⟨"olm", "packageserver"⟩ = Except.ok () →
      InstallOLMOperator env =
        ([Event.applyFile b1, Event.applyFile b2, Event.applyFile b3,
          Event.rollout ⟨"olm", "olm-operator"⟩,
          Event.rollout ⟨"olm", "catalog-operator"⟩]
          ++ tc ++ [Event.rollout ⟨"olm", "packageserver"⟩],
          Except.ok ())) ∧
    (∀ env subs tc,
      csvLoop env subs = (tc, Except.ok ()) →
      tc = subs.map (fun sub => Event.csvWait (csvKeyFor env sub))) := by
  refine ⟨?_, ?_, ?_⟩
  · intro env h
    simp [InstallOLMOperator, h, tpure]
  · intro env b1 b2 b3 rs1 rs2 tc hd h1 h2 h3 h4 h5 h6 h7 h8 h9 h10
      hcsv h11
    simp [InstallOLMOperator, hd, bind_eq_tbind, tbind, liftR, stepE,
      wrapE, tpure, h1, h2, h3, h4, h5, h6, h7, h8, h9, h10, hcsv, h11]
  · intro env subs tc h
    exact (csvLoop_ok env subs tc h).1

/-- Concrete instances of `claimC1_amended`: with the deployment already
present the trace is empty; with it absent and a Subscription decoded
from the olm manifest, the run issues the three applies, the two
rollout waits, one CSV wait and the final rollout wait, in order. -/
theorem claimC1_witness :
    InstallOLMOperator olmEnvFound = ([], Except.ok ()) ∧
    InstallOLMOperator olmEnvW =
      ([Event.applyFile "crds/olm/crds.yaml",
        Event.applyFile "crds/olm/olm.yaml",
        Event.applyFile "crds/olm/percona-dbaas-catalog.yaml",
        Event.rollout ⟨"olm", "olm-operator"⟩,
        Event.rollout ⟨"olm", "catalog-operator"⟩,
        Event.csvWait ⟨"olm", "subA-csv"⟩,
        Event.rollout ⟨"olm", "packageserver"⟩], Except.ok ()) := by
  constructor
  · exact claimC1_amended.1 olmEnvFound (by decide)
  · have h := claimC1_amended.2.1 olmEnvW "crds/olm/crds.yaml"
      "crds/olm/olm.yaml" "crds/olm/percona-dbaas-catalog.yaml"
      [] [subRes0] [Event.csvWait ⟨"olm", "subA-csv"⟩]
      rfl rfl rfl rfl rfl rfl rfl rfl rfl rfl rfl rfl rfl
    simpa using h

/-- C1 counterexample to the claim as stated: in `olmEnv0` the applied
vendor catalog manifest decodes to a Subscription-kind resource, the
bootstrap run succeeds, yet its trace contains no CSV wait at all — the
code decodes only the first two applied manifests, so "every
Subscription-kind resource decoded from the applied manifests" is not
waited on. -/
theorem claimC1_counterexample :
    olmFound olmEnv0.deployment = false ∧
    olmEnv0.readFile "crds/olm/percona-dbaas-catalog.yaml"
      = Except.ok "crds/olm/percona-dbaas-catalog.yaml" ∧
    Event.applyFile "crds/olm/percona-dbaas-catalog.yaml"
      ∈ (InstallOLMOperator olmEnv0).1 ∧
    olmEnv0.decode "crds/olm/percona-dbaas-catalog.yaml"
      = Except.ok [subRes0] ∧
    subscriptionGVK subRes0 = true ∧
    (InstallOLMOperator olmEnv0).2 = Except.ok () ∧
    (InstallOLMOperator olmEnv0).1.all (fun e => !(isCsvWait e))
      = true := by
  decide

/-- C2: if the poll resolves a subscription whose install plan is
already approved, `UpgradeOperator` returns success with no write; and
every event it ever traces is the single approval write, issued only
when the fetched plan's approved field is false. -/
theorem claimC2_confirmed :
    (∀ env ns opName subsOpt ipName ip,
      env.pollSubscription = Except.ok subsOpt →
      subInstallName subsOpt = some ipName →
      env.getInstallPlan ipName = Except.ok ip →
      ip.approved = true →
      UpgradeOperator env ns opName = ([], Except.ok ())) ∧
    (∀ env ns opName e,
      e ∈ (UpgradeOperator env ns opName).1 →
      ∃ subsOpt ipName ip,
        env.pollSubscription = Except.ok subsOpt ∧
        subInstallName subsOpt = some ipName ∧
        env.getInstallPlan ipName = Except.ok ip ∧
        ip.approved = false ∧
        e = Event.updateInstallPlan ns ipName true) := by
  constructor
  · intro env ns opName subsOpt ipName ip h1 h2 h3 h4
    simp [UpgradeOperator, h1, h2, h3, h4, tpure]
  · intro env ns opName e he
    rcases h1 : env.pollSubscription with e1 | subsOpt
    · simp [UpgradeOperator, h1, liftR] at he
    · rcases h2 : subInstallName subsOpt with - | ipName
      · simp [UpgradeOperator, h1, h2, liftR] at he
      · rcases h3 : env.getInstallPlan ipName with e3 | ip
        · simp [UpgradeOperator, h1, h2, h3, liftR] at he
        · rcases h4 : ip.approved with - | -
          · simp only [UpgradeOperator, h1, h2, h3, h4, stepE,
              Bool.false_eq_true, if_false, List.mem_singleton] at he
            exact ⟨subsOpt, ipName, ip, rfl, h2, h3, h4, he⟩
          · simp [UpgradeOperator, h1, h2, h3, h4, tpure] at he

/-- Concrete instance of `claimC2_confirmed`: an already-approved
install plan makes the upgrade a successful no-op. -/
theorem claimC2_witness :
    UpgradeOperator upgEnv0 "default" "percona-xtradb-cluster-operator"
      = ([], Except.ok ()) :=
  claimC2_confirmed.1 upgEnv0 "default"
    "percona-xtradb-cluster-operator" (some ⟨some "ip-1"⟩) "ip-1"
    ⟨true⟩ rfl rfl rfl rfl

theorem wrapE_fst {α : Type} (m : String) (x : TraceM α) :
    (wrapE m x).1 = x.1 := by
  rcases x with ⟨t, r⟩
  cases r <;> rfl

theorem mem_tbind_fst {α β : Type} (x : TraceM α) (f : α → TraceM β)
    (e : Event) (he : e ∈ (tbind x f).1) :
    e ∈ x.1 ∨ ∃ a, e ∈ (f a).1 := by
  rcases x with ⟨t, r⟩
  rcases r with e1 | a
  · simp only [tbind] at he
    exact Or.inl he
  · rcases hf : f a with ⟨t2, r2⟩
    simp only [tbind, hf] at he
    rcases List.mem_append.mp he with h | h
    · exact Or.inl h
    · exact Or.inr ⟨a, by simp [hf, h]⟩

theorem mem_tbind_left {α β : Type} (x : TraceM α) (f : α → TraceM β)
    (e : Event) (he : e ∈ x.1) : e ∈ (tbind x f).1 := by
  rcases x with ⟨t, r⟩
  rcases r with e1 | a
  · simpa [tbind] using he
  · rcases hf : f a with ⟨t2, r2⟩
    simp only [tbind, hf]
    exact List.mem_append.mpr (Or.inl he)

theorem createOG_events (env : InstallOpEnv) (g : String) (e : Event)
    (he : e ∈ (createOperatorGroupIfNeeded env g).1) :
    e = Event.createOperatorGroup "default" g := by
  rcases h : env.getOperatorGroup g with e1 | u
  · simp only [createOperatorGroupIfNeeded, h, stepE,
      List.mem_singleton] at he
    exact he
  · simp [createOperatorGroupIfNeeded, h, tpure] at he

/-- C6: every subscription-create call `InstallOperator` issues carries
the manual approval mode, whatever approval the request asked for; and
whenever the operator group is already present the manual-approval
subscription create for the request is in fact issued. -/
theorem claimC6_confirmed :
    (∀ env req e, e ∈ (InstallOperator env req).1 →
      subscriptionApproval e ≠ some Approval.automatic) ∧
    (∀ env req, env.getOperatorGroup req.operatorGroup = Except.ok () →
      Event.createSubscription req.reqNs req.name "olm" req.catalogSource
        req.name req.channel req.startingCSV Approval.manual
        ∈ (InstallOperator env req).1) := by
  constructor
  · intro env req e he
    simp only [InstallOperator, bind_eq_tbind] at he
    rcases mem_tbind_fst _ _ _ he with h | ⟨a, h⟩
    · rw [createOG_events env req.operatorGroup e h]
      simp [subscriptionApproval]
    · rcases mem_tbind_fst _ _ _ h with h2 | ⟨b, h2⟩
      · rw [wrapE_fst] at h2
        simp only [stepE, List.mem_singleton] at h2
        rw [h2]
        simp [subscriptionApproval]
      · rcases hp : env.pollSubscription with e1 | osubs
        · simp [hp, liftR] at h2
        · rcases osubs with - | subs
          · simp [hp, liftR] at h2
          · rcases hsub : subs.install with - | ipName
            · simp [hp, hsub, liftR] at h2
            · simp only [hp, hsub, bind_eq_tbind] at h2
              rcases mem_tbind_fst _ _ _ h2 with h3 | ⟨ip, h3⟩
              · simp [liftR] at h3
              · simp only [stepE, List.mem_singleton] at h3
                rw [h3]
                simp [subscriptionApproval]
  · intro env req hog
    simp only [InstallOperator, bind_eq_tbind]
    have h1 : createOperatorGroupIfNeeded env req.operatorGroup
        = tpure () := by
      simp [createOperatorGroupIfNeeded, hog]
    rw [h1]
    simp only [tpure, tbind_ok, List.nil_append]
    apply mem_tbind_left
    rw [wrapE_fst]
    simp [stepE]

/-- Concrete instance of `claimC6_confirmed`: a request asking for
automatic approval still produces a manual-approval subscription
create. -/
theorem claimC6_witness :
    autoReq.installPlanApproval = Approval.automatic ∧
    Event.createSubscription "default" "victoriametrics-operator" "olm"
      "percona-dbaas-catalog" "victoriametrics-operator" "stable-v0" ""
      Approval.manual ∈ (InstallOperator instEnv0 autoReq).1 ∧
    subscriptionApproval (Event.createSubscription "default"
      "victoriametrics-operator" "olm" "percona-dbaas-catalog"
      "victoriametrics-operator" "stable-v0" "" Approval.manual)
      ≠ some Approval.automatic := by
  refine ⟨rfl, ?_, ?_⟩
  · exact claimC6_confirmed.2 instEnv0 autoReq rfl
  · exact claimC6_confirmed.1 instEnv0 autoReq _ (by decide)

/-- C5 counterexample to the claim as stated: against an apply that
always fails, the retry loop of `ProvisionMonitoring` makes exactly 3
attempts but sleeps 3 times — once after every failed attempt,
including the last — not 2; the last error is surfaced wrapped. -/
theorem claimC5_counterexample :
    (applyFileWithRetry alwaysFail
      "crds/victoriametrics/crs/vmagent_rbac.yaml").1.countP
        isAttemptEvent = 3 ∧
    (applyFileWithRetry alwaysFail
      "crds/victoriametrics/crs/vmagent_rbac.yaml").1.countP
        isSleepEvent = 3 ∧
    ¬ ((applyFileWithRetry alwaysFail
      "crds/victoriametrics/crs/vmagent_rbac.yaml").1.countP
        isSleepEvent = 2) ∧
    (applyFileWithRetry alwaysFail
      "crds/victoriametrics/crs/vmagent_rbac.yaml").2
      = Except.error (KErr.wrap
          ("cannot apply file: "
            ++ "crds/victoriametrics/crs/vmagent_rbac.yaml")
          (KErr.msg "boom")) := by
  decide

/-- C5 (amended): when every attempt fails, the retry loop of
`ProvisionMonitoring` attempts the apply exactly 3 times, sleeping 10
seconds after each failed attempt — three waits in all, two of them
between attempts and one after the final failure — and then surfaces
the last apply error wrapped with the file path. -/
theorem claimC5_amended :
    ∀ (apply : Nat → Except KErr Unit) (path : String)
      (errs : Nat → KErr),
      (∀ i, i < 3 → apply i = Except.error (errs i)) →
      applyFileWithRetry apply path =
        ([Event.applyFileAttempt path 0, Event.sleepSeconds 10,
          Event.applyFileAttempt path 1, Event.sleepSeconds 10,
          Event.applyFileAttempt path 2, Event.sleepSeconds 10],
         Except.error (KErr.wrap ("cannot apply file: " ++ path)
           (errs 2))) := by
  intro apply path errs h
  have h0 := h 0 (by norm_num)
  have h1 := h 1 (by norm_num)
  have h2 := h 2 (by norm_num)
  simp [applyFileWithRetry, retryApplyLoop, h0, h1, h2]

/-- Concrete instance of `claimC5_amended` on the always-failing
apply. -/
theorem claimC5_witness :
    applyFileWithRetry alwaysFail
      "crds/victoriametrics/kube-state-metrics.yaml" =
      ([Event.applyFileAttempt
          "crds/victoriametrics/kube-state-metrics.yaml" 0,
        Event.sleepSeconds 10,
        Event.applyFileAttempt
          "crds/victoriametrics/kube-state-metrics.yaml" 1,
        Event.sleepSeconds 10,
        Event.applyFileAttempt
          "crds/victoriametrics/kube-state-metrics.yaml" 2,
        Event.sleepSeconds 10],
       Except.error (KErr.wrap
         ("cannot apply file: "
           ++ "crds/victoriametrics/kube-state-metrics.yaml")
         (KErr.msg "boom"))) :=
  claimC5_amended alwaysFail
    "crds/victoriametrics/kube-state-metrics.yaml"
    (fun _ => KErr.msg "boom") (fun _ _ => rfl)

/-- C7: on a run of `ProvisionCluster` with no channel variables set and
every call succeeding, the second operator install — logged as the PXC
operator install — reuses the unchanged Victoria Metrics request
(name `victoriametrics-operator`, channel `stable-v0`); no install
naming the PXC operator is ever issued, and setting
`DBAAS_PXC_OP_CHANNEL` changes nothing. -/
theorem claimC7_codebug :
    ProvisionCluster cliEnv0 =
      ([Event.installOLM,
        Event.installOp vmParams,
        Event.installOp vmParams,
        Event.installOp { vmParams with
          name := "percona-server-mongodb-operator",
          channel := "stable-v1" },
        Event.installOp { vmParams with
          name := "dbaas-operator", channel := "stable-v0" }],
       Except.ok ()) ∧
    ProvisionCluster cliEnvPXC = ProvisionCluster cliEnv0 ∧
    ((ProvisionCluster cliEnv0).1.all fun e =>
      installOpName e != some "percona-xtradb-cluster-operator")
      = true := by
  decide

/-- C8 counterexample to the claim as stated: on all-success runs the
sequence of files `CleanupMonitoring` deletes is not the reverse of the
sequence `ProvisionMonitoring` applies. -/
theorem claimC8_counterexample :
    deletedPaths (CleanupMonitoring cleanupEnvOk).1 ≠
      (appliedPaths (ProvisionMonitoring monEnvOk "login" "password"
        "http://pmm").1).reverse ∧
    deletedPaths (CleanupMonitoring cleanupEnvOk).1
      = cleanupMonitoringFiles ∧
    appliedPaths (ProvisionMonitoring monEnvOk "login" "password"
      "http://pmm").1 = provisionMonitoringFiles := by
  decide

/-- C8 (amended): `CleanupMonitoring` deletes exactly the same nine
manifest files as `ProvisionMonitoring` applies — the deleted sequence
is a permutation of the reversed applied sequence — but its order is
not the exact reverse. -/
theorem claimC8_amended :
    (deletedPaths (CleanupMonitoring cleanupEnvOk).1).Perm
      (appliedPaths (ProvisionMonitoring monEnvOk "login" "password"
        "http://pmm").1).reverse ∧
    cleanupMonitoringFiles.Perm provisionMonitoringFiles.reverse ∧
    cleanupMonitoringFiles ≠ provisionMonitoringFiles.reverse ∧
    (CleanupMonitoring cleanupEnvOk).2 = Except.ok () ∧
    (ProvisionMonitoring monEnvOk "login" "password" "http://pmm").2
      = Except.ok () := by
  decide

/-- C10: `provisionPMMMonitoring` issues no call and returns success, so
a `ProvisionCluster` run with monitoring enabled is identical to one
with it disabled; the monitoring work (secret creation and manifest
applies) sits only behind `ProvisionPMM`, which delegates to
`ProvisionMonitoring`. -/
theorem claimC10_confirmed :
    provisionPMMMonitoring = ([], Except.ok ()) ∧
    (∀ env : CliEnv,
      ProvisionCluster { env with monitoringEnabled := true }
        = ProvisionCluster { env with monitoringEnabled := false }) ∧
    (∀ env : PMMEnv, ∀ token, env.adminToken = Except.ok token →
      ProvisionPMM env = ProvisionMonitoring env.mon
        ("dbaas-service-account-" ++ toString env.randAccount) token
        env.pmmEndpoint) := by
  refine ⟨rfl, ?_, ?_⟩
  · intro env
    rfl
  · intro env token h
    simp [ProvisionPMM, h]

/-- Concrete instance of `claimC10_confirmed`, including that the
`ProvisionPMM` run does create the monitoring secret. -/
theorem claimC10_witness :
    ProvisionCluster { cliEnv0 with monitoringEnabled := true }
      = ProvisionCluster { cliEnv0 with monitoringEnabled := false } ∧
    ProvisionPMM pmmEnv0 = ProvisionMonitoring pmmEnv0.mon
      ("dbaas-service-account-" ++ toString pmmEnv0.randAccount)
      "token0" pmmEnv0.pmmEndpoint ∧
    Event.createPMMSecret "vm-operator-11" ∈ (ProvisionPMM pmmEnv0).1 :=
  ⟨claimC10_confirmed.2.1 cliEnv0,
   claimC10_confirmed.2.2 pmmEnv0 "token0" rfl,
   by decide⟩

end Everest
